import Mathlib

/-!
Shallow embedding of the toggle service repository.

The repository has two parallel implementations of the same service:
`src/toggle_service/{persistence.py, app.py}` (the packaged app, exercised by
`src/tests/test_toggle.py`) and `src/main.py` (a standalone module whose
persistence helpers `_save_sync` / `_load_sync` are textually identical to the
ones in `persistence.py`, and whose handlers differ in one place: its
`toggle_state` takes no lock and performs no save).

Modelling decisions:
* A Python dict from identifier strings to booleans is an insertion-ordered
  association list `List (String × Bool)`; real dicts have no duplicate keys,
  which appears as a `Nodup` hypothesis where a proof needs it.
* The filesystem is a map from path strings to file contents.  A file's
  content is either a value that parses as JSON (`FileContent.json j`) or
  text that does not parse (`FileContent.invalid raw`); `json.dump` /
  `json.load` of the Python standard library are treated as inverses at the
  value level, so `json.dump(d, f, indent=2, sort_keys=True)` stores the JSON
  object holding d's entries with keys sorted (indentation does not change
  the parsed value).
* I/O failure inside `_save_sync` is injected through an explicit
  `Option SaveStep` argument naming the step that raises (write, flush or
  rename); `None` is the run with no failure.
* `tempfile.mkstemp` is modelled by passing the fresh temp path `tmp`
  explicitly; its guarantees (a name distinct from the target and from any
  existing file) appear as hypotheses.
* The asyncio lock in `app.py` serializes the mutate-then-persist sequence of
  each mutating handler; concurrent executions are therefore modelled as
  sequential composition of the handler's state transition.
-/

set_option autoImplicit false

namespace Toggle

/-- JSON values as produced and consumed by json.load / json.dump.  Object
keys are strings, as in JSON.  Numbers are modelled as integers, which covers
every use in this development. -/
inductive Json where
  | str (s : String)
  | bool (b : Bool)
  | num (n : Int)
  | null
  | arr (elems : List Json)
  | obj (entries : List (String × Json))

/-- Content of a file on disk: either text that parses as the JSON value `j`,
or text (such as a truncated or empty file) that raises JSONDecodeError. -/
inductive FileContent where
  | json (j : Json)
  | invalid (raw : String)

/-- The filesystem: each path either holds a file with some content or no
file at all (os.path.exists is false). -/
def FS : Type := String → Option FileContent

/-- Write (create or overwrite) the file at path p. -/
def setFile (fs : FS) (p : String) (c : FileContent) : FS :=
  fun q => if q = p then some c else fs q

/-- Remove the file at path p (os.remove / the removal half of os.replace). -/
def removeFile (fs : FS) (p : String) : FS :=
  fun q => if q = p then none else fs q

/-- A filesystem with no files. -/
def emptyFS : FS := fun _ => none

/-- A Python dict from identifier strings to booleans: an insertion-ordered
association list.  Real dicts never hold a duplicate key. -/
abbrev PyDict := List (String × Bool)

/-- Byte-wise (code-point) comparison of character lists, the order Python
uses to compare the str keys that sort_keys=True sorts by. -/
def charListLe : List Char → List Char → Bool
  | [], _ => true
  | _ :: _, [] => false
  | a :: as, b :: bs => if a = b then charListLe as bs else decide (a < b)

/-- Lexicographic order on strings, Python's order on str. -/
def strLe (a b : String) : Bool := charListLe a.data b.data

/-- Insert one entry into a key-sorted association list, keeping it sorted. -/
def insertSorted (kv : String × Bool) : List (String × Bool) → List (String × Bool)
  | [] => [kv]
  | hd :: tl => if strLe kv.1 hd.1 then kv :: hd :: tl else hd :: insertSorted kv tl

/-- Sort an association list by key, the effect of sort_keys=True on the
serialized entry order. -/
def sortByKey : List (String × Bool) → List (String × Bool)
  | [] => []
  | kv :: rest => insertSorted kv (sortByKey rest)

/-- Value written by json.dump(data, f, indent=2, sort_keys=True): the JSON
object with data's entries, keys sorted, booleans serialized as JSON
booleans.  Indentation affects only whitespace, not the parsed value. -/
def dumpJson (data : PyDict) : Json :=
  Json.obj ((sortByKey data).map (fun kv => (kv.1, Json.bool kv.2)))

/-- Python bool(v) (truthiness) on a value produced by json.load: False,
None, 0, empty string, empty list and empty dict are falsy, everything else
is truthy. -/
def truthy : Json → Bool
  | Json.bool b => b
  | Json.str s => !(s == "")
  | Json.num n => !(n == 0)
  | Json.null => false
  | Json.arr elems => !elems.isEmpty
  | Json.obj entries => !entries.isEmpty

/-- Step of the save protocol at which an injected I/O failure raises, all
after the temporary file has been created by mkstemp. -/
inductive SaveStep where
  | duringWrite
  | duringFlush
  | duringRename

/-- Failure surfaced to the caller of a save (an OSError of the write, flush
or rename). -/
inductive SaveError where
  | ioError

/-- Embedding of _save_sync(path, data) from src/toggle_service/persistence.py
(src/main.py holds a textually identical copy).  The code: ensure the target
directory exists; mkstemp a fresh temp file there (here the fresh name tmp is
passed in); json.dump the data with sort_keys=True; flush and fsync;
os.replace the temp file onto path; in the finally block, remove the temp
file if it still exists.  The fail argument injects an exception at the named
step; the returned pair is the filesystem afterwards and the error surfaced
to the caller, if any. -/
def _save_sync (fs : FS) (path tmp : String) (data : PyDict)
    (fail : Option SaveStep) : FS × Option SaveError :=
  let fs1 := setFile fs tmp (FileContent.invalid "")
  match fail with
  | some SaveStep.duringWrite =>
      (removeFile fs1 tmp, some SaveError.ioError)
  | some SaveStep.duringFlush =>
      (removeFile (setFile fs1 tmp (FileContent.json (dumpJson data))) tmp,
        some SaveError.ioError)
  | some SaveStep.duringRename =>
      (removeFile (setFile fs1 tmp (FileContent.json (dumpJson data))) tmp,
        some SaveError.ioError)
  | none =>
      let written := setFile fs1 tmp (FileContent.json (dumpJson data))
      (setFile (removeFile written tmp) path (FileContent.json (dumpJson data)), none)

/-- Embedding of _load_sync(path) from src/toggle_service/persistence.py
(src/main.py holds a textually identical copy).  The code: if the path does
not exist return an empty dict; json.load the file, returning an empty dict
when that raises OSError or JSONDecodeError; if the parsed value is a dict
return it with each key coerced by str (a no-op, since JSON object keys are
already strings) and each value coerced by bool; otherwise fall through and
return an empty dict. -/
def _load_sync (fs : FS) (path : String) : PyDict :=
  match fs path with
  | none => []
  | some (FileContent.invalid _) => []
  | some (FileContent.json (Json.obj entries)) =>
      entries.map (fun kv => (kv.1, truthy kv.2))
  | some (FileContent.json _) => []

/-- Python dict lookup toggles[guid] (also the test guid in toggles): the
value of the unique entry with this key, if present. -/
def getKey? : PyDict → String → Option Bool
  | [], _ => none
  | kv :: rest, k => if kv.1 = k then some kv.2 else getKey? rest k

/-- Python dict assignment toggles[guid] = v: replace the value in place when
the key exists, append a new entry otherwise (dicts are insertion-ordered). -/
def setKey : PyDict → String → Bool → PyDict
  | [], k, v => [(k, v)]
  | kv :: rest, k, v => if kv.1 = k then (k, v) :: rest else kv :: setKey rest k v

/-- Response body of a successful request. -/
structure Resp where
  guid : String
  state : Bool
deriving DecidableEq, Repr

/-- Observable outcome of a request: a 200 body, an HTTPException 404, or a
propagated save failure (a 500 to the client). -/
inductive Outcome where
  | ok (r : Resp)
  | notFound
  | saveFailed
deriving DecidableEq, Repr

/-- State owned by one app instance: the in-memory toggles dict and the
filesystem the persistence helpers act on. -/
structure AppState where
  toggles : PyDict
  fs : FS

namespace App

/-- Embedding of the POST /create handler of src/toggle_service/app.py
(src/main.py's create_toggle is the same logic with the module-level store):
mint a guid (uuid.uuid4, modelled as the argument guid, fresh by hypothesis
where needed), then under the store lock set toggles[guid] = False and save
the snapshot; respond with the guid and state False.  A save failure
propagates out of the handler after the in-memory insert has happened. -/
def create_toggle (path tmp guid : String) (fail : Option SaveStep)
    (st : AppState) : AppState × Outcome :=
  let toggles1 := setKey st.toggles guid false
  let saved := _save_sync st.fs path tmp toggles1 fail
  (⟨toggles1, saved.1⟩,
    match saved.2 with
    | some _ => Outcome.saveFailed
    | none => Outcome.ok ⟨guid, false⟩)

/-- Embedding of the POST /toggle/(guid) handler of src/toggle_service/app.py:
under the store lock, 404 when the guid is absent; otherwise flip
toggles[guid], save the snapshot, and respond with the new value. -/
def toggle_state (path tmp : String) (fail : Option SaveStep)
    (st : AppState) (guid : String) : AppState × Outcome :=
  match getKey? st.toggles guid with
  | none => (st, Outcome.notFound)
  | some s =>
      let toggles1 := setKey st.toggles guid (!s)
      let saved := _save_sync st.fs path tmp toggles1 fail
      (⟨toggles1, saved.1⟩,
        match saved.2 with
        | some _ => Outcome.saveFailed
        | none => Outcome.ok ⟨guid, !s⟩)

/-- Embedding of the GET /status/(guid) handler of src/toggle_service/app.py
(identical in src/main.py): 404 when absent, otherwise the current value; no
state is touched. -/
def get_status (st : AppState) (guid : String) : Outcome :=
  match getKey? st.toggles guid with
  | none => Outcome.notFound
  | some s => Outcome.ok ⟨guid, s⟩

/-- Sequential composition of n executions of the toggle handler on the same
guid: under the store lock each concurrent caller completes its
mutate-then-persist sequence before the next proceeds, so n concurrent calls
execute as some serialization, which this iteration models. -/
def toggleN (path tmp guid : String) : Nat → AppState → AppState
  | 0, st => st
  | n + 1, st => toggleN path tmp guid n (toggle_state path tmp none st guid).1

end App

namespace MainPy

/-- Embedding of the POST /toggle/(guid) handler of src/main.py: a plain
synchronous def that does not acquire _store_lock and does not call
save_toggles.  404 when the guid is absent; otherwise it flips
toggles[guid] in memory and returns the new value, leaving the filesystem
untouched. -/
def toggle_state (st : AppState) (guid : String) : AppState × Outcome :=
  match getKey? st.toggles guid with
  | none => (st, Outcome.notFound)
  | some s =>
      (⟨setKey st.toggles guid (!s), st.fs⟩, Outcome.ok ⟨guid, !s⟩)

end MainPy

/-! Helper lemmas about the filesystem model and dict operations. -/

@[simp]
theorem setFile_same (fs : FS) (p : String) (c : FileContent) :
    setFile fs p c p = some c := by
  simp [setFile]

theorem setFile_other (fs : FS) (p q : String) (c : FileContent) (h : q ≠ p) :
    setFile fs p c q = fs q := by
  simp [setFile, h]

@[simp]
theorem removeFile_same (fs : FS) (p : String) : removeFile fs p p = none := by
  simp [removeFile]

theorem removeFile_other (fs : FS) (p q : String) (h : q ≠ p) :
    removeFile fs p q = fs q := by
  simp [removeFile, h]

theorem getKey?_setKey_self (l : PyDict) (k : String) (v : Bool) :
    getKey? (setKey l k v) k = some v := by
  induction l with
  | nil => simp [setKey, getKey?]
  | cons kv rest ih =>
    by_cases h : kv.1 = k
    · simp [setKey, getKey?, h]
    · simp [setKey, getKey?, h, ih]

theorem getKey?_setKey_other (l : PyDict) (k k' : String) (v : Bool) (h : k' ≠ k) :
    getKey? (setKey l k v) k' = getKey? l k' := by
  induction l with
  | nil => simp [setKey, getKey?, Ne.symm h]
  | cons kv rest ih =>
    by_cases hk : kv.1 = k
    · subst hk
      simp [setKey, getKey?, Ne.symm h]
    · simp only [setKey, if_neg hk, getKey?]
      by_cases hk' : kv.1 = k'
      · simp [hk']
      · simp [hk', ih]

theorem setKey_map_fst (l : PyDict) (k : String) (v s : Bool)
    (h : getKey? l k = some s) :
    (setKey l k v).map Prod.fst = l.map Prod.fst := by
  induction l with
  | nil => simp [getKey?] at h
  | cons kv rest ih =>
    by_cases hk : kv.1 = k
    · simp [setKey, hk]
    · simp only [getKey?, if_neg hk] at h
      simp [setKey, hk, ih h]

theorem insertSorted_perm (kv : String × Bool) (l : List (String × Bool)) :
    List.Perm (insertSorted kv l) (kv :: l) := by
  induction l with
  | nil => simp [insertSorted]
  | cons hd tl ih =>
    simp only [insertSorted]
    split
    · exact List.Perm.refl _
    · exact List.Perm.trans (List.Perm.cons hd ih) (List.Perm.swap kv hd tl)

theorem sortByKey_perm (l : List (String × Bool)) : List.Perm (sortByKey l) l := by
  induction l with
  | nil => exact List.Perm.refl _
  | cons kv rest ih =>
    exact List.Perm.trans (insertSorted_perm kv (sortByKey rest)) (List.Perm.cons kv ih)

/-- Lookup in an association list with distinct keys is unchanged by
permutation. -/
theorem getKey?_eq_of_perm {l₁ l₂ : PyDict} (h : List.Perm l₁ l₂)
    (nd : (l₁.map Prod.fst).Nodup) (k : String) :
    getKey? l₁ k = getKey? l₂ k := by
  induction h with
  | nil => rfl
  | cons x _ ih =>
    simp only [List.map_cons, List.nodup_cons] at nd
    simp only [getKey?]
    split
    · rfl
    · exact ih nd.2
  | swap x y l =>
    simp only [List.map_cons, List.nodup_cons, List.mem_cons] at nd
    have hxy : y.1 ≠ x.1 := fun hh => nd.1 (Or.inl hh)
    simp only [getKey?]
    by_cases h1 : y.1 = k
    · by_cases h2 : x.1 = k
      · exact absurd (h1.trans h2.symm) hxy
      · simp [h1, h2]
    · by_cases h2 : x.1 = k
      · simp [h1, h2]
      · simp [h1, h2]
  | trans h₁ _ ih₁ ih₂ =>
    have nd₂ := ((h₁.map Prod.fst).nodup_iff).mp nd
    exact (ih₁ nd).trans (ih₂ nd₂)

/-- Loading a file that holds the dump of a dict yields the dict's entries in
key-sorted order. -/
theorem load_of_dump (fs : FS) (path : String) (M : PyDict)
    (h : fs path = some (FileContent.json (dumpJson M))) :
    _load_sync fs path = sortByKey M := by
  simp only [_load_sync, h, dumpJson, List.map_map]
  have hid : ((fun kv : String × Json => (kv.1, truthy kv.2)) ∘
      fun kv : String × Bool => (kv.1, Json.bool kv.2)) = id :=
    funext fun kv => rfl
  simp [hid]

/-- A successful save leaves the dump of the data at the target path. -/
theorem save_sets_target (fs : FS) (path tmp : String) (data : PyDict) :
    (_save_sync fs path tmp data none).1 path =
      some (FileContent.json (dumpJson data)) ∧
    (_save_sync fs path tmp data none).2 = none := by
  simp [_save_sync]

/-! Claim theorems. -/

/-- C5: on a path where no file exists, _load_sync returns the empty mapping;
being a total function of the model, it raises nothing. -/
theorem c5_load_missing_file (fs : FS) (path : String) (h : fs path = none) :
    _load_sync fs path = [] := by
  simp [_load_sync, h]

theorem c5_witness :
    emptyFS "toggles.json" = none ∧ _load_sync emptyFS "toggles.json" = [] :=
  ⟨rfl, c5_load_missing_file emptyFS "toggles.json" rfl⟩

/-- C3: when the save fails at any step after the temporary file is created
(during the write, the flush, or the rename), the pre-existing file at the
target path is unchanged, the temporary file is removed by the finally
block, and the failure is surfaced to the caller. -/
theorem c3_save_failure_preserves_target (fs : FS) (path tmp : String)
    (data : PyDict) (step : SaveStep) (hpt : tmp ≠ path) :
    (_save_sync fs path tmp data (some step)).1 path = fs path ∧
    (_save_sync fs path tmp data (some step)).1 tmp = none ∧
    (_save_sync fs path tmp data (some step)).2 = some SaveError.ioError := by
  have hpt' : path ≠ tmp := fun h => hpt h.symm
  cases step <;>
    simp [_save_sync, removeFile, setFile, hpt']

theorem c3_witness :
    (("tmp42" : String) ≠ "toggles.json") ∧
    ((_save_sync (setFile emptyFS "toggles.json" (FileContent.invalid "old"))
        "toggles.json" "tmp42" [("a", true)] (some SaveStep.duringRename)).1
        "toggles.json" =
      setFile emptyFS "toggles.json" (FileContent.invalid "old") "toggles.json" ∧
    (_save_sync (setFile emptyFS "toggles.json" (FileContent.invalid "old"))
        "toggles.json" "tmp42" [("a", true)] (some SaveStep.duringRename)).1
        "tmp42" = none ∧
    (_save_sync (setFile emptyFS "toggles.json" (FileContent.invalid "old"))
        "toggles.json" "tmp42" [("a", true)] (some SaveStep.duringRename)).2 =
      some SaveError.ioError) :=
  ⟨fun h => by simp at h,
    c3_save_failure_preserves_target _ "toggles.json" "tmp42" [("a", true)]
      SaveStep.duringRename (fun h => by simp at h)⟩

/-- C4 counterexample: a file whose content parses to a mapping whose value is
not a boolean (the JSON object with entry a mapped to 5) does NOT load as the
empty mapping: _load_sync coerces the value by Python truthiness and returns
the one-entry mapping with a mapped to true. -/
theorem c4_counterexample :
    _load_sync (setFile emptyFS "toggles.json"
        (FileContent.json (Json.obj [("a", Json.num 5)]))) "toggles.json" =
      [("a", true)] ∧
    ([("a", true)] : PyDict) ≠ [] := by
  exact ⟨rfl, fun h => by simp at h⟩

/-- C4 amended: _load_sync returns the empty mapping when the file's content
does not parse, or parses to a value that is not a mapping; when the content
parses to a mapping, it returns that mapping with every value coerced to a
boolean by Python truthiness (rather than returning empty); in all cases it
is total and raises nothing. -/
theorem c4_load_tolerance (fs : FS) (path : String) :
    (∀ raw, fs path = some (FileContent.invalid raw) → _load_sync fs path = []) ∧
    (∀ j, fs path = some (FileContent.json j) →
      (∀ entries, j ≠ Json.obj entries) → _load_sync fs path = []) ∧
    (∀ entries, fs path = some (FileContent.json (Json.obj entries)) →
      _load_sync fs path = entries.map (fun kv => (kv.1, truthy kv.2))) := by
  refine ⟨fun raw h => by simp [_load_sync, h], fun j h hnotobj => ?_, fun entries h => by simp [_load_sync, h]⟩
  cases j with
  | obj entries => exact absurd rfl (hnotobj entries)
  | str s => simp [_load_sync, h]
  | bool b => simp [_load_sync, h]
  | num n => simp [_load_sync, h]
  | null => simp [_load_sync, h]
  | arr elems => simp [_load_sync, h]

theorem c4_witness :
    _load_sync (setFile emptyFS "bad.json" (FileContent.invalid "tru")) "bad.json" = [] ∧
    _load_sync (setFile emptyFS "arr.json" (FileContent.json (Json.arr []))) "arr.json" = [] ∧
    _load_sync (setFile emptyFS "num.json"
        (FileContent.json (Json.obj [("a", Json.num 5), ("b", Json.num 0)]))) "num.json" =
      [("a", true), ("b", false)] :=
  ⟨(c4_load_tolerance _ "bad.json").1 "tru" rfl,
    (c4_load_tolerance _ "arr.json").2.1 (Json.arr []) rfl
      (fun entries h => by cases h),
    (c4_load_tolerance _ "num.json").2.2 [("a", Json.num 5), ("b", Json.num 0)] rfl⟩

/-- C8: on an identifier absent from the store, the toggle handler of app.py
returns 404 leaving the whole state (in-memory dict and filesystem) exactly
as it was, performing no save; get_status returns 404; and main.py's toggle
handler likewise returns 404 with the state untouched.  No entry is
created. -/
theorem c8_not_found (path tmp : String) (fail : Option SaveStep)
    (st : AppState) (guid : String) (h : getKey? st.toggles guid = none) :
    App.toggle_state path tmp fail st guid = (st, Outcome.notFound) ∧
    App.get_status st guid = Outcome.notFound ∧
    MainPy.toggle_state st guid = (st, Outcome.notFound) := by
  simp [App.toggle_state, App.get_status, MainPy.toggle_state, h]

/-- C6: on an identifier present with stored state s, the toggle handler
(both the app.py one, run with no save failure, and the main.py one) sets the
stored state to the negation of s and returns a 200 body whose state field is
that new value. -/
theorem c6_toggle_flips (path tmp : String) (st : AppState) (guid : String)
    (s : Bool) (h : getKey? st.toggles guid = some s) :
    getKey? (App.toggle_state path tmp none st guid).1.toggles guid = some (!s) ∧
    (App.toggle_state path tmp none st guid).2 = Outcome.ok ⟨guid, !s⟩ ∧
    getKey? (MainPy.toggle_state st guid).1.toggles guid = some (!s) ∧
    (MainPy.toggle_state st guid).2 = Outcome.ok ⟨guid, !s⟩ := by
  simp [App.toggle_state, MainPy.toggle_state, h, _save_sync, getKey?_setKey_self]

theorem c6_witness :
    getKey? (App.toggle_state "toggles.json" "tmp42" none
        ⟨[("a", true)], emptyFS⟩ "a").1.toggles "a" = some false ∧
    (App.toggle_state "toggles.json" "tmp42" none
        ⟨[("a", true)], emptyFS⟩ "a").2 = Outcome.ok ⟨"a", false⟩ ∧
    getKey? (MainPy.toggle_state ⟨[("a", true)], emptyFS⟩ "a").1.toggles "a" =
      some false ∧
    (MainPy.toggle_state ⟨[("a", true)], emptyFS⟩ "a").2 = Outcome.ok ⟨"a", false⟩ :=
  c6_toggle_flips "toggles.json" "tmp42" ⟨[("a", true)], emptyFS⟩ "a" true
    (by simp [getKey?])

/-- C7: the create handler, handed a minted identifier not currently present
in the map (uuid4 freshness, a hypothesis here) and run with no save failure,
inserts it with state false and responds with that identifier and state
false; a get_status on the resulting state then yields false for it. -/
theorem c7_create_inserts_false (path tmp guid : String) (st : AppState)
    (hfresh : getKey? st.toggles guid = none) :
    (App.create_toggle path tmp guid none st).2 = Outcome.ok ⟨guid, false⟩ ∧
    getKey? (App.create_toggle path tmp guid none st).1.toggles guid = some false ∧
    App.get_status (App.create_toggle path tmp guid none st).1 guid =
      Outcome.ok ⟨guid, false⟩ := by
  refine ⟨by simp [App.create_toggle, _save_sync], ?_, ?_⟩
  · simp [App.create_toggle, getKey?_setKey_self]
  · simp [App.create_toggle, App.get_status, getKey?_setKey_self]

theorem c7_witness :
    (App.create_toggle "toggles.json" "tmp42" "g1" none
        ⟨[("a", true)], emptyFS⟩).2 = Outcome.ok ⟨"g1", false⟩ ∧
    getKey? (App.create_toggle "toggles.json" "tmp42" "g1" none
        ⟨[("a", true)], emptyFS⟩).1.toggles "g1" = some false ∧
    App.get_status (App.create_toggle "toggles.json" "tmp42" "g1" none
        ⟨[("a", true)], emptyFS⟩).1 "g1" = Outcome.ok ⟨"g1", false⟩ :=
  c7_create_inserts_false "toggles.json" "tmp42" "g1" ⟨[("a", true)], emptyFS⟩
    (by simp [getKey?])

/-- C10: toggling a present identifier changes only that identifier's entry:
every other key's stored value is unchanged, under both toggle handlers; and
creating a fresh identifier leaves every pre-existing entry with its key and
its stored value unchanged. -/
theorem c10_frame (path tmp guid gnew : String) (st : AppState) (s : Bool)
    (hpres : getKey? st.toggles guid = some s)
    (hfresh : getKey? st.toggles gnew = none) :
    (∀ k, k ≠ guid →
      getKey? (App.toggle_state path tmp none st guid).1.toggles k =
        getKey? st.toggles k) ∧
    (∀ k, k ≠ guid →
      getKey? (MainPy.toggle_state st guid).1.toggles k = getKey? st.toggles k) ∧
    (∀ k v, getKey? st.toggles k = some v →
      getKey? (App.create_toggle path tmp gnew none st).1.toggles k = some v) := by
  refine ⟨fun k hk => ?_, fun k hk => ?_, fun k v hv => ?_⟩
  · simp [App.toggle_state, hpres, getKey?_setKey_other _ _ _ _ hk]
  · simp [MainPy.toggle_state, hpres, getKey?_setKey_other _ _ _ _ hk]
  · have hk : k ≠ gnew := fun h => by
      rw [h, hfresh] at hv
      cases hv
    simp [App.create_toggle, getKey?_setKey_other _ _ _ _ hk, hv]

theorem c10_witness :
    getKey? (App.toggle_state "toggles.json" "tmp42" none
        ⟨[("a", true), ("b", false)], emptyFS⟩ "a").1.toggles "b" =
      getKey? [("a", true), ("b", false)] "b" ∧
    getKey? (MainPy.toggle_state ⟨[("a", true), ("b", false)], emptyFS⟩
        "a").1.toggles "b" = getKey? [("a", true), ("b", false)] "b" ∧
    getKey? (App.create_toggle "toggles.json" "tmp42" "g1" none
        ⟨[("a", true), ("b", false)], emptyFS⟩).1.toggles "b" = some false :=
  have h := c10_frame "toggles.json" "tmp42" "a" "g1"
    ⟨[("a", true), ("b", false)], emptyFS⟩ true (by simp [getKey?])
    (by simp [getKey?])
  ⟨h.1 "b" (fun hh => by simp at hh), h.2.1 "b" (fun hh => by simp at hh),
    h.2.2 "b" false (by simp [getKey?])⟩

/-- C2: saving a dict M (no duplicate keys, as for every real Python dict)
to a path with _save_sync and loading that path back with _load_sync
reproduces M exactly: membership of keys is unchanged and every key looks up
to the same boolean value. -/
theorem c2_save_load_roundtrip (fs : FS) (path tmp : String) (M : PyDict)
    (hnd : (M.map Prod.fst).Nodup) :
    (∀ k, getKey? (_load_sync (_save_sync fs path tmp M none).1 path) k =
      getKey? M k) ∧
    (∀ k, k ∈ (_load_sync (_save_sync fs path tmp M none).1 path).map Prod.fst ↔
      k ∈ M.map Prod.fst) := by
  have hfile := (save_sets_target fs path tmp M).1
  have hload : _load_sync (_save_sync fs path tmp M none).1 path = sortByKey M :=
    load_of_dump _ path M hfile
  have hperm := sortByKey_perm M
  have hnd' : ((sortByKey M).map Prod.fst).Nodup :=
    ((hperm.map Prod.fst).nodup_iff).mpr hnd
  constructor
  · intro k
    rw [hload]
    exact getKey?_eq_of_perm hperm hnd' k
  · intro k
    rw [hload]
    exact (hperm.map Prod.fst).mem_iff

theorem c2_witness :
    ((([("b", true), ("a", false)] : PyDict).map Prod.fst).Nodup ∧
      getKey? (_load_sync
        (_save_sync emptyFS "toggles.json" "tmp42" [("b", true), ("a", false)]
          none).1 "toggles.json") "b" = getKey? [("b", true), ("a", false)] "b" ∧
      ("a" ∈ (_load_sync
        (_save_sync emptyFS "toggles.json" "tmp42" [("b", true), ("a", false)]
          none).1 "toggles.json").map Prod.fst ↔
        "a" ∈ ([("b", true), ("a", false)] : PyDict).map Prod.fst)) :=
  have h := c2_save_load_roundtrip emptyFS "toggles.json" "tmp42"
    [("b", true), ("a", false)] (by simp)
  ⟨by simp, h.1 "b", h.2 "a"⟩

/-- One successful run of the app.py toggle handler on a present identifier:
the in-memory dict gets the flipped entry and the target path gets the dump
of the new dict. -/
theorem toggle_step_state (path tmp guid : String) (st : AppState) (t : Bool)
    (h : getKey? st.toggles guid = some t) :
    (App.toggle_state path tmp none st guid).1.toggles =
      setKey st.toggles guid (!t) ∧
    (App.toggle_state path tmp none st guid).1.fs path =
      some (FileContent.json (dumpJson (setKey st.toggles guid (!t)))) := by
  simp [App.toggle_state, h, _save_sync]

/-- Parity bookkeeping for iterated toggling. -/
theorem xor_not_mod_two (t : Bool) (n : Nat) :
    Bool.xor (!t) (n % 2 == 1) = Bool.xor t ((n + 1) % 2 == 1) := by
  rcases Nat.mod_two_eq_zero_or_one n with h | h
  · have h2 : (n + 1) % 2 = 1 := by omega
    rw [h, h2]
    cases t <;> rfl
  · have h2 : (n + 1) % 2 = 0 := by omega
    rw [h, h2]
    cases t <;> rfl

/-- Invariant of the serialized toggle iteration: starting from a state whose
file already holds the dump of its dict, n further toggles leave the tracked
entry at its start value xor the parity of n, keep the file equal to the dump
of the current dict, and never change the key list. -/
theorem toggleN_invariant (path tmp guid : String) (n : Nat) :
    ∀ (st : AppState) (t : Bool),
      getKey? st.toggles guid = some t →
      st.fs path = some (FileContent.json (dumpJson st.toggles)) →
      getKey? (App.toggleN path tmp guid n st).toggles guid =
        some (Bool.xor t (n % 2 == 1)) ∧
      (App.toggleN path tmp guid n st).fs path =
        some (FileContent.json (dumpJson (App.toggleN path tmp guid n st).toggles)) ∧
      (App.toggleN path tmp guid n st).toggles.map Prod.fst =
        st.toggles.map Prod.fst := by
  induction n with
  | zero =>
    intro st t h hfs
    simp [App.toggleN, h, hfs]
  | succ n ih =>
    intro st t h hfs
    have hstep := toggle_step_state path tmp guid st t h
    have h1 : getKey? (App.toggle_state path tmp none st guid).1.toggles guid =
        some (!t) := by
      rw [hstep.1]
      exact getKey?_setKey_self _ _ _
    have hfs1 : (App.toggle_state path tmp none st guid).1.fs path =
        some (FileContent.json
          (dumpJson (App.toggle_state path tmp none st guid).1.toggles)) := by
      rw [hstep.1]
      exact hstep.2
    have hkeys1 : (App.toggle_state path tmp none st guid).1.toggles.map Prod.fst =
        st.toggles.map Prod.fst := by
      rw [hstep.1]
      exact setKey_map_fst _ _ _ _ h
    have hih := ih (App.toggle_state path tmp none st guid).1 (!t) h1 hfs1
    have hunfold : App.toggleN path tmp guid (n + 1) st =
        App.toggleN path tmp guid n (App.toggle_state path tmp none st guid).1 := rfl
    refine ⟨?_, ?_, ?_⟩
    · rw [hunfold, hih.1, xor_not_mod_two]
    · rw [hunfold]
      exact hih.2.1
    · rw [hunfold, hih.2.2, hkeys1]

/-- C9: under the store lock the N concurrent toggle calls on one identifier
run as a serialization, modelled by N iterations of the toggle handler.  For
a present identifier with initial state s and N at least one call, the final
in-memory state is s xor (N mod 2 = 1), the persistence file holds exactly
the dump of the final in-memory dict, and loading it back gives the same
value as the in-memory dict at every key. -/
theorem c9_serialized_toggles (path tmp guid : String) (st : AppState)
    (s : Bool) (N : Nat) (hpres : getKey? st.toggles guid = some s)
    (hnd : (st.toggles.map Prod.fst).Nodup) (hN : 0 < N) :
    getKey? (App.toggleN path tmp guid N st).toggles guid =
      some (Bool.xor s (N % 2 == 1)) ∧
    (App.toggleN path tmp guid N st).fs path =
      some (FileContent.json (dumpJson (App.toggleN path tmp guid N st).toggles)) ∧
    (∀ k, getKey? (_load_sync (App.toggleN path tmp guid N st).fs path) k =
      getKey? (App.toggleN path tmp guid N st).toggles k) := by
  obtain ⟨n, rfl⟩ : ∃ n, N = n + 1 := ⟨N - 1, by omega⟩
  have hstep := toggle_step_state path tmp guid st s hpres
  have h1 : getKey? (App.toggle_state path tmp none st guid).1.toggles guid =
      some (!s) := by
    rw [hstep.1]
    exact getKey?_setKey_self _ _ _
  have hfs1 : (App.toggle_state path tmp none st guid).1.fs path =
      some (FileContent.json
        (dumpJson (App.toggle_state path tmp none st guid).1.toggles)) := by
    rw [hstep.1]
    exact hstep.2
  have hkeys1 : (App.toggle_state path tmp none st guid).1.toggles.map Prod.fst =
      st.toggles.map Prod.fst := by
    rw [hstep.1]
    exact setKey_map_fst _ _ _ _ hpres
  have hinv := toggleN_invariant path tmp guid n
    (App.toggle_state path tmp none st guid).1 (!s) h1 hfs1
  have hunfold : App.toggleN path tmp guid (n + 1) st =
      App.toggleN path tmp guid n (App.toggle_state path tmp none st guid).1 := rfl
  have hkeysfinal :
      (App.toggleN path tmp guid n
        (App.toggle_state path tmp none st guid).1).toggles.map Prod.fst =
      st.toggles.map Prod.fst := hinv.2.2.trans hkeys1
  have hndfinal :
      ((App.toggleN path tmp guid n
        (App.toggle_state path tmp none st guid).1).toggles.map Prod.fst).Nodup :=
    hkeysfinal.symm ▸ hnd
  refine ⟨?_, ?_, ?_⟩
  · rw [hunfold, hinv.1, xor_not_mod_two]
  · rw [hunfold]
    exact hinv.2.1
  · intro k
    rw [hunfold]
    rw [load_of_dump _ path _ hinv.2.1]
    have hperm := sortByKey_perm (App.toggleN path tmp guid n
      (App.toggle_state path tmp none st guid).1).toggles
    have hnds : ((sortByKey (App.toggleN path tmp guid n
        (App.toggle_state path tmp none st guid).1).toggles).map Prod.fst).Nodup :=
      ((hperm.map Prod.fst).nodup_iff).mpr hndfinal
    exact getKey?_eq_of_perm hperm hnds k

theorem c9_witness :
    getKey? (App.toggleN "toggles.json" "tmp42" "a" 3
        ⟨[("a", false)], emptyFS⟩).toggles "a" = some (Bool.xor false (3 % 2 == 1)) ∧
    (App.toggleN "toggles.json" "tmp42" "a" 3 ⟨[("a", false)], emptyFS⟩).fs
        "toggles.json" =
      some (FileContent.json (dumpJson (App.toggleN "toggles.json" "tmp42" "a" 3
        ⟨[("a", false)], emptyFS⟩).toggles)) ∧
    getKey? (_load_sync (App.toggleN "toggles.json" "tmp42" "a" 3
        ⟨[("a", false)], emptyFS⟩).fs "toggles.json") "a" =
      getKey? (App.toggleN "toggles.json" "tmp42" "a" 3
        ⟨[("a", false)], emptyFS⟩).toggles "a" :=
  have h := c9_serialized_toggles "toggles.json" "tmp42" "a"
    ⟨[("a", false)], emptyFS⟩ false 3 (by simp [getKey?]) (by simp) (by omega)
  ⟨h.1, h.2.1, h.2.2 "a"⟩

/-- C1: refutation at a concrete input of the claim that every mutating
handler persists under the lock before responding.  With the store holding
the single toggle g in state false and the persistence file holding the
matching snapshot, the main.py toggle handler succeeds (200 with state true)
and flips the in-memory entry, yet performs no save at all: the file still
holds the dump of the old mapping, which differs from the dump of the new
in-memory mapping, so persisted content and memory disagree after a
successful mutation. -/
theorem c1_main_toggle_skips_persistence :
    (MainPy.toggle_state
        ⟨[("g", false)],
          setFile emptyFS "toggles.json"
            (FileContent.json (dumpJson [("g", false)]))⟩ "g").2 =
      Outcome.ok ⟨"g", true⟩ ∧
    (MainPy.toggle_state
        ⟨[("g", false)],
          setFile emptyFS "toggles.json"
            (FileContent.json (dumpJson [("g", false)]))⟩ "g").1.toggles =
      [("g", true)] ∧
    (MainPy.toggle_state
        ⟨[("g", false)],
          setFile emptyFS "toggles.json"
            (FileContent.json (dumpJson [("g", false)]))⟩ "g").1.fs
        "toggles.json" =
      some (FileContent.json (dumpJson [("g", false)])) ∧
    dumpJson [("g", false)] ≠ dumpJson [("g", true)] := by
  refine ⟨rfl, rfl, rfl, ?_⟩
  simp [dumpJson, sortByKey, insertSorted]

theorem c8_witness :
    App.toggle_state "toggles.json" "tmp42" none
        ⟨[("a", true)], emptyFS⟩ "missing" = (⟨[("a", true)], emptyFS⟩, Outcome.notFound) ∧
    App.get_status ⟨[("a", true)], emptyFS⟩ "missing" = Outcome.notFound ∧
    MainPy.toggle_state ⟨[("a", true)], emptyFS⟩ "missing" =
      (⟨[("a", true)], emptyFS⟩, Outcome.notFound) :=
  c8_not_found "toggles.json" "tmp42" none ⟨[("a", true)], emptyFS⟩ "missing"
    (by simp [getKey?])

end Toggle
